import Mathlib

/-!
Shallow embedding of the Aviator Chatbot UI client-side chat/session state
machine, translated from:
  - src/src/context/AppContext.tsx   (state container and reducer)
  - src/unnamed/part_002             (ChatPanel component: handleSendMessage,
                                      handleFeedback, simulateStreamingResponse)
  - src/unnamed/part_003             (Chat component: handleSendMessage,
                                      simulateStreamingResponse)
  - src/unnamed/part_000             (types/index.ts)

Event handlers are modelled as pure functions from the captured ("closure")
state, the UI inputs, and the outcome of the backend call, to the pair of
(HTTP requests issued, reducer actions dispatched). Component-local React
state (input box text, waiting/streaming booleans, window geometry) is not
part of the shared app state and is threaded as explicit parameters where
the handlers read it.
-/

/-! ## Data model (types/index.ts) -/

inductive Role where
  | user
  | assistant
deriving DecidableEq, Repr

inductive FeedbackTag where
  | liked
  | disliked
deriving DecidableEq, Repr

inductive UserType where
  | Support
  | Client
  | Tester
deriving DecidableEq, Repr

structure User where
  id : Int
  username : String
  user_type : UserType
  full_name : Option String := none
  email : Option String := none
  is_active : Bool
  isLoggedIn : Bool
deriving DecidableEq, Repr

/-- ChatMessage from types/index.ts: the feedback field is optional and
nullable in TypeScript; absent and null both behave as "none" and are both
modelled as `none`. -/
structure ChatMessage where
  role : Role
  content : String
  feedback : Option FeedbackTag := none
  timestamp : Option String := none
deriving DecidableEq, Repr

structure ChatHistory where
  id : String
  title : String
  timestamp : String
  username : String
deriving DecidableEq, Repr

/-- ChatRequest from types/index.ts; chat_id is optional (undefined is `none`). -/
structure ChatRequest where
  username : String
  chat_id : Option String := none
  user_input : String
deriving DecidableEq, Repr

structure ChatResponse where
  response : String
  chat_id : String
deriving DecidableEq, Repr

/-- FeedbackRequest from services/api.ts. -/
structure FeedbackRequest where
  username : String
  chat_id : String
  message_index : Int
  user_message : String
  assistant_message : String
  feedback_type : FeedbackTag
deriving DecidableEq, Repr

/-! ## State and actions (context/AppContext.tsx) -/

structure AppState where
  user : Option User
  currentChatId : Option String
  messages : List ChatMessage
  chatHistory : List ChatHistory
  isLoading : Bool
  error : Option String
  needsHistoryRefresh : Bool
deriving DecidableEq, Repr

inductive AppAction where
  | login (payload : User)
  | logout
  | setLoading (payload : Bool)
  | setError (payload : Option String)
  | setCurrentChat (payload : Option String)
  | setMessages (payload : List ChatMessage)
  | addMessage (payload : ChatMessage)
  | updateMessage (index : Int) (message : ChatMessage)
  | setChatHistory (payload : List ChatHistory)
  | setNeedsHistoryRefresh (payload : Bool)
  | updateMessageFeedback (index : Int) (feedback : Option FeedbackTag)
deriving DecidableEq, Repr

def initialState : AppState :=
  { user := none
    currentChatId := none
    messages := []
    chatHistory := []
    isLoading := false
    error := none
    needsHistoryRefresh := false }

/-- mapWithIndexFrom models the JavaScript Array.prototype.map callback that
receives the element index; the accumulating counter starts at `n`. The
index inside the array is a natural number, while the payload index of an
action is a JavaScript number (modelled as Int), hence the cast. -/
def mapWithIndexFrom (f : Nat → ChatMessage → ChatMessage) (n : Nat) :
    List ChatMessage → List ChatMessage
  | [] => []
  | x :: xs => f n x :: mapWithIndexFrom f (n + 1) xs

/-- appReducer from context/AppContext.tsx. -/
def appReducer (state : AppState) (action : AppAction) : AppState :=
  match action with
  | .login u => { state with user := some u, error := none }
  | .logout => initialState
  | .setLoading b => { state with isLoading := b }
  | .setError e => { state with error := e, isLoading := false }
  | .setCurrentChat c => { state with currentChatId := c }
  | .setMessages ms => { state with messages := ms }
  | .addMessage m => { state with messages := state.messages ++ [m] }
  | .updateMessage idx m =>
      { state with
        messages :=
          mapWithIndexFrom (fun i msg => if (i : Int) = idx then m else msg) 0
            state.messages }
  | .setChatHistory h => { state with chatHistory := h }
  | .setNeedsHistoryRefresh b => { state with needsHistoryRefresh := b }
  | .updateMessageFeedback idx fb =>
      { state with
        messages :=
          mapWithIndexFrom
            (fun i msg => if (i : Int) = idx then { msg with feedback := fb } else msg)
            0 state.messages }

/-- applyActions folds a list of dispatched actions through the reducer. -/
def applyActions (state : AppState) (actions : List AppAction) : AppState :=
  actions.foldl appReducer state

/-! ## JavaScript string and array primitives used by the handlers -/

/-- nthOpt models JavaScript array indexing arr[i] for a nonnegative index:
`some` element when in bounds, `none` (undefined) otherwise. -/
def nthOpt {α : Type} : List α → Nat → Option α
  | [], _ => none
  | x :: _, 0 => some x
  | _ :: xs, n + 1 => nthOpt xs n

/-- listGetInt models JavaScript arr[i] for an arbitrary (possibly negative)
numeric index: a negative index yields undefined. -/
def listGetInt {α : Type} (l : List α) (i : Int) : Option α :=
  if 0 ≤ i then nthOpt l i.toNat else none

/-- jsTrimChars drops leading and trailing whitespace characters, modelling
JavaScript String.prototype.trim on the character list of a string. -/
def jsTrimChars (l : List Char) : List Char :=
  ((l.dropWhile Char.isWhitespace).reverse.dropWhile Char.isWhitespace).reverse

/-- jsTrim models JavaScript String.prototype.trim. -/
def jsTrim (s : String) : String :=
  ⟨jsTrimChars s.data⟩

/-- strTake models JavaScript str.substring(0, n) (with characters standing
in for UTF-16 code units). -/
def strTake (s : String) (n : Nat) : String :=
  ⟨s.data.take n⟩

/-- strLen models JavaScript str.length (with characters standing in for
UTF-16 code units). -/
def strLen (s : String) : Nat :=
  s.data.length

/-- splitCharsOnSpace models JavaScript str.split(" ") on the character list:
every single space is a separator, and the result is never empty (the empty
string splits to one empty word). -/
def splitCharsOnSpace : List Char → List (List Char)
  | [] => [[]]
  | c :: rest =>
    match splitCharsOnSpace rest with
    | [] => [[]]
    | w :: ws => if c = ' ' then [] :: w :: ws else (c :: w) :: ws

/-- splitOnSpace models JavaScript str.split(" "). -/
def splitOnSpace (s : String) : List String :=
  (splitCharsOnSpace s.data).map fun w => ⟨w⟩

/-- strFalsy models JavaScript truthiness of a nullable string: null and the
empty string are falsy, every other string is truthy. -/
def strFalsy : Option String → Bool
  | none => true
  | some s => s == ""

/-! ## Streaming simulations

The setInterval-driven typing animations are modelled as the list of
UPDATE_MESSAGE actions they dispatch over their lifetime, in dispatch
order. -/

/-- streamLoop models the interval body of simulateStreamingResponse in the
ChatPanel component (part_002): while the cursor is below the response
length it advances by 8 characters and dispatches the prefix, otherwise it
dispatches the complete response and stops. -/
def streamLoop (full : String) (messageIndex : Int) (cur : Nat) : List AppAction :=
  if cur < strLen full then
    AppAction.updateMessage messageIndex
        { role := .assistant, content := strTake full (cur + 8) } ::
      streamLoop full messageIndex (cur + 8)
  else
    [AppAction.updateMessage messageIndex { role := .assistant, content := full }]
termination_by strLen full - cur
decreasing_by simp_wf; omega

/-- simulateStreamingResponse from the ChatPanel component (part_002): shows
the first 5 characters immediately, then runs the interval loop from
cursor 5. -/
def simulateStreamingResponse (fullResponse : String) (messageIndex : Int) :
    List AppAction :=
  AppAction.updateMessage messageIndex
      { role := .assistant, content := strTake fullResponse 5 } ::
    streamLoop fullResponse messageIndex 5

/-- simulateStreamingResponseChat from the Chat component (part_003): splits
the response on single spaces and dispatches the cumulative space-joined
prefix of words, one word per tick. -/
def simulateStreamingResponseChat (fullResponse : String) (messageIndex : Int) :
    List AppAction :=
  let words := splitOnSpace fullResponse
  (List.range words.length).map fun k =>
    AppAction.updateMessage messageIndex
      { role := .assistant, content := String.intercalate " " (words.take (k + 1)) }

/-! ## Event handlers

Each handler returns the pair (requests sent to the backend, actions
dispatched to the reducer). The backend outcome is a parameter: `Except.ok`
for a resolved call, `Except.error` for a rejected one. -/

/-- handleSendMessage from the ChatPanel component (part_002, lines 563-604).
The guard returns early when the trimmed input is falsy (empty) or no user
is set. The assistant message index is the closure message count plus one.
On success, the backend chat id is adopted (with a history-refresh flag)
only when it is truthy and the closure chat id is the sentinel "new_chat";
then streaming runs. On failure an error is surfaced and the placeholder is
replaced by a fixed apology. The component-local setInputValue and
setIsWaitingForResponse calls touch no shared state and are omitted. -/
def handleSendMessage (state : AppState) (inputValue : String)
    (backend : Except Unit ChatResponse) : List ChatRequest × List AppAction :=
  if jsTrim inputValue = "" ∨ state.user = none then ([], [])
  else
    let userMessage := jsTrim inputValue
    let username := (state.user.map User.username).getD ""
    let assistantMessageIndex : Int := (state.messages.length : Int) + 1
    let pre : List AppAction :=
      [AppAction.addMessage { role := .user, content := userMessage },
       AppAction.addMessage { role := .assistant, content := "" }]
    let req : ChatRequest :=
      { user_input := userMessage
        chat_id :=
          if state.currentChatId = some "new_chat" ∨ state.currentChatId = none
          then none else state.currentChatId
        username := username }
    match backend with
    | .ok response =>
        let adopt : List AppAction :=
          if response.chat_id ≠ "" ∧ state.currentChatId = some "new_chat" then
            [AppAction.setCurrentChat (some response.chat_id),
             AppAction.setNeedsHistoryRefresh true]
          else []
        ([req],
         pre ++ adopt ++
           simulateStreamingResponse response.response assistantMessageIndex)
    | .error _ =>
        ([req],
         pre ++
           [AppAction.setError (some "Failed to send message"),
            AppAction.updateMessage assistantMessageIndex
              { role := .assistant,
                content := "Sorry, I encountered an error. Please try again." }])

/-- handleSendMessageChat from the Chat component (part_003, lines 139-186).
The guard additionally returns early while a stream is in flight. On
success the backend chat id is adopted whenever the closure chat id is the
sentinel "new_chat" or null. On failure the handler surfaces an error and
dispatches SET_MESSAGES with the stale closure message list minus its last
element (state.messages.slice(0, -1)). -/
def handleSendMessageChat (state : AppState) (inputValue : String)
    (isStreaming : Bool) (backend : Except Unit ChatResponse) :
    List ChatRequest × List AppAction :=
  if jsTrim inputValue = "" ∨ state.user = none ∨ isStreaming then ([], [])
  else
    let userMessage : ChatMessage := { role := .user, content := jsTrim inputValue }
    let username := (state.user.map User.username).getD ""
    let assistantMessageIndex : Int := (state.messages.length : Int) + 1
    let pre : List AppAction :=
      [AppAction.addMessage userMessage,
       AppAction.addMessage { role := .assistant, content := "" }]
    let req : ChatRequest :=
      { username := username
        chat_id :=
          if state.currentChatId = some "new_chat" ∨ state.currentChatId = none
          then none else state.currentChatId
        user_input := userMessage.content }
    match backend with
    | .ok response =>
        let adopt : List AppAction :=
          if state.currentChatId = some "new_chat" ∨ state.currentChatId = none then
            [AppAction.setCurrentChat (some response.chat_id),
             AppAction.setNeedsHistoryRefresh true]
          else []
        ([req],
         pre ++ adopt ++
           simulateStreamingResponseChat response.response assistantMessageIndex)
    | .error _ =>
        ([req],
         pre ++
           [AppAction.setError (some "Failed to send message"),
            AppAction.setMessages state.messages.dropLast])

/-- handleFeedback from the ChatPanel component (part_002, lines 606-629).
The guard returns early when the indexed message is undefined, no user is
set, the current chat id is falsy (null or empty; the sentinel "new_chat"
string is truthy and does not return early), or the message role is not
assistant. Otherwise the tag is applied optimistically and the feedback
request is sent; on failure the tag is reverted to null and an error is
surfaced. -/
def handleFeedback (state : AppState) (messageIndex : Int)
    (feedbackType : FeedbackTag) (backend : Except Unit Unit) :
    List FeedbackRequest × List AppAction :=
  match listGetInt state.messages messageIndex, state.user, state.currentChatId with
  | some currentMessage, some u, some chatId =>
    if chatId = "" ∨ currentMessage.role ≠ .assistant then ([], [])
    else
      let userMessage :=
        ((listGetInt state.messages (messageIndex - 1)).map ChatMessage.content).getD ""
      let req : FeedbackRequest :=
        { username := u.username
          chat_id := chatId
          message_index := Int.fdiv messageIndex 2
          user_message := userMessage
          assistant_message := currentMessage.content
          feedback_type := feedbackType }
      match backend with
      | .ok _ =>
          ([req], [AppAction.updateMessageFeedback messageIndex (some feedbackType)])
      | .error _ =>
          ([req],
           [AppAction.updateMessageFeedback messageIndex (some feedbackType),
            AppAction.updateMessageFeedback messageIndex none,
            AppAction.setError (some "Failed to submit feedback")])
  | _, _, _ => ([], [])

/-- isUpdateMessage recognises UPDATE_MESSAGE actions. -/
def isUpdateMessage : AppAction → Bool
  | .updateMessage _ _ => true
  | _ => false

/-- isSetCurrentChat recognises SET_CURRENT_CHAT actions. -/
def isSetCurrentChat : AppAction → Bool
  | .setCurrentChat _ => true
  | _ => false

/-- isSetNeedsHistoryRefresh recognises SET_NEEDS_HISTORY_REFRESH actions. -/
def isSetNeedsHistoryRefresh : AppAction → Bool
  | .setNeedsHistoryRefresh _ => true
  | _ => false

/-- latestUpdate returns the payload of the last update in the sequence that
targets index `i`, if any. -/
def latestUpdate : List (Nat × ChatMessage) → Nat → Option ChatMessage
  | [], _ => none
  | (j, m) :: rest, i =>
    match latestUpdate rest i with
    | some m2 => some m2
    | none => if j = i then some m else none

/-- msgQ is a concrete user message used in witnesses. -/
def msgQ : ChatMessage := { role := Role.user, content := "q" }

/-- msgA is a concrete assistant message used in witnesses. -/
def msgA : ChatMessage := { role := Role.assistant, content := "a" }

/-- u0 is a concrete logged-in user used in witnesses. -/
def u0 : User :=
  { id := 1, username := "kamala", user_type := UserType.Support,
    is_active := true, isLoggedIn := true }

/-- sentinelState is a concrete state on the unpersisted sentinel chat. -/
def sentinelState : AppState :=
  { user := some u0, currentChatId := some "new_chat", messages := [msgQ, msgA],
    chatHistory := [], isLoading := false, error := none,
    needsHistoryRefresh := false }

/-- persistedState is a concrete state on an already-persisted chat. -/
def persistedState : AppState :=
  { user := some u0, currentChatId := some "chat42", messages := [msgQ, msgA],
    chatHistory := [], isLoading := false, error := none,
    needsHistoryRefresh := false }

/-- sendAdoptsSentinel: when a send is started on the sentinel chat and the
backend resolves with a nonempty chat id, both chat components dispatch
SET_CURRENT_CHAT exactly once, carrying exactly the backend id, and
SET_NEEDS_HISTORY_REFRESH true exactly once; after the dispatched actions
are applied the state holds the backend id and the refresh flag. -/
def sendAdoptsSentinel (s : AppState) (input : String) : Prop :=
  s.currentChatId = some "new_chat" → ∀ r : ChatResponse, r.chat_id ≠ "" →
    (handleSendMessage s input (.ok r)).2.filter isSetCurrentChat
        = [AppAction.setCurrentChat (some r.chat_id)] ∧
    (handleSendMessage s input (.ok r)).2.filter isSetNeedsHistoryRefresh
        = [AppAction.setNeedsHistoryRefresh true] ∧
    (applyActions s (handleSendMessage s input (.ok r)).2).currentChatId
        = some r.chat_id ∧
    (applyActions s (handleSendMessage s input (.ok r)).2).needsHistoryRefresh
        = true ∧
    (handleSendMessageChat s input false (.ok r)).2.filter isSetCurrentChat
        = [AppAction.setCurrentChat (some r.chat_id)] ∧
    (handleSendMessageChat s input false (.ok r)).2.filter isSetNeedsHistoryRefresh
        = [AppAction.setNeedsHistoryRefresh true] ∧
    (applyActions s (handleSendMessageChat s input false (.ok r)).2).currentChatId
        = some r.chat_id ∧
    (applyActions s (handleSendMessageChat s input false (.ok r)).2).needsHistoryRefresh
        = true

/-- sendKeepsPersisted: a send started on an already-persisted chat
dispatches no SET_CURRENT_CHAT and no SET_NEEDS_HISTORY_REFRESH in either
chat component, whatever the backend outcome, so both fields are unchanged
after the dispatched actions are applied. -/
def sendKeepsPersisted (s : AppState) (input : String) : Prop :=
  ∀ cid, s.currentChatId = some cid → cid ≠ "new_chat" →
    ∀ b : Except Unit ChatResponse,
      (handleSendMessage s input b).2.filter isSetCurrentChat = [] ∧
      (handleSendMessage s input b).2.filter isSetNeedsHistoryRefresh = [] ∧
      (applyActions s (handleSendMessage s input b).2).currentChatId
          = s.currentChatId ∧
      (applyActions s (handleSendMessage s input b).2).needsHistoryRefresh
          = s.needsHistoryRefresh ∧
      (handleSendMessageChat s input false b).2.filter isSetCurrentChat = [] ∧
      (handleSendMessageChat s input false b).2.filter isSetNeedsHistoryRefresh = [] ∧
      (applyActions s (handleSendMessageChat s input false b).2).currentChatId
          = s.currentChatId ∧
      (applyActions s (handleSendMessageChat s input false b).2).needsHistoryRefresh
          = s.needsHistoryRefresh


/-! ## Helper lemmas -/

theorem mapWithIndexFrom_length (f : Nat → ChatMessage → ChatMessage) (n : Nat)
    (l : List ChatMessage) : (mapWithIndexFrom f n l).length = l.length := by
  induction l generalizing n with
  | nil => rfl
  | cons x xs ih => simp [mapWithIndexFrom, ih]

theorem nthOpt_mapWithIndexFrom (f : Nat → ChatMessage → ChatMessage) (n : Nat)
    (l : List ChatMessage) (i : Nat) :
    nthOpt (mapWithIndexFrom f n l) i = (nthOpt l i).map (f (n + i)) := by
  induction l generalizing n i with
  | nil => simp [mapWithIndexFrom, nthOpt]
  | cons x xs ih =>
    cases i with
    | zero => simp [mapWithIndexFrom, nthOpt]
    | succ j =>
      simp only [mapWithIndexFrom, nthOpt, ih (n + 1) j]
      have h : n + 1 + j = n + (j + 1) := by omega
      rw [h]

theorem nthOpt_eq_none_iff {α : Type} (l : List α) (i : Nat) :
    nthOpt l i = none ↔ l.length ≤ i := by
  induction l generalizing i with
  | nil => simp [nthOpt]
  | cons x xs ih =>
    cases i with
    | zero => simp [nthOpt]
    | succ j => simpa [nthOpt, Nat.succ_le_succ_iff] using ih j

theorem nthOpt_isSome_of_lt {α : Type} (l : List α) (i : Nat) (h : i < l.length) :
    ∃ x, nthOpt l i = some x := by
  cases hx : nthOpt l i with
  | none => exact absurd ((nthOpt_eq_none_iff l i).mp hx) (by omega)
  | some x => exact ⟨x, rfl⟩

theorem nthOpt_append {α : Type} (l₁ l₂ : List α) (i : Nat) :
    nthOpt (l₁ ++ l₂) i =
      if i < l₁.length then nthOpt l₁ i else nthOpt l₂ (i - l₁.length) := by
  induction l₁ generalizing i with
  | nil => simp [nthOpt]
  | cons x xs ih =>
    cases i with
    | zero => simp [nthOpt]
    | succ j =>
      simp only [List.cons_append, nthOpt, List.length_cons]
      rw [show xs.append l₂ = xs ++ l₂ from rfl, ih j]
      by_cases h : j < xs.length
      · rw [if_pos h, if_pos (by omega)]
      · rw [if_neg h, if_neg (by omega)]
        congr 1
        omega

theorem appReducer_updateMessage_nthOpt (s : AppState) (idx : Int) (m : ChatMessage)
    (i : Nat) :
    nthOpt (appReducer s (.updateMessage idx m)).messages i =
      (nthOpt s.messages i).map (fun msg => if (i : Int) = idx then m else msg) := by
  simp only [appReducer, nthOpt_mapWithIndexFrom, Nat.zero_add]

theorem appReducer_updateMessage_length (s : AppState) (idx : Int) (m : ChatMessage) :
    (appReducer s (.updateMessage idx m)).messages.length = s.messages.length := by
  simp [appReducer, mapWithIndexFrom_length]

theorem appReducer_updateMessage_frame (s : AppState) (idx : Int) (m : ChatMessage) :
    (appReducer s (.updateMessage idx m)).user = s.user ∧
    (appReducer s (.updateMessage idx m)).currentChatId = s.currentChatId ∧
    (appReducer s (.updateMessage idx m)).chatHistory = s.chatHistory ∧
    (appReducer s (.updateMessage idx m)).isLoading = s.isLoading ∧
    (appReducer s (.updateMessage idx m)).error = s.error ∧
    (appReducer s (.updateMessage idx m)).needsHistoryRefresh = s.needsHistoryRefresh := by
  simp [appReducer]

/-- applyActions distributes over list append. -/
theorem applyActions_append (s : AppState) (l₁ l₂ : List AppAction) :
    applyActions s (l₁ ++ l₂) = applyActions (applyActions s l₁) l₂ :=
  List.foldl_append _ _ _ _

/-- Folding a list of ADD_MESSAGE actions appends the payloads in order and
touches nothing else. -/
theorem applyActions_addMessages (s : AppState) (adds : List ChatMessage) :
    applyActions s (adds.map AppAction.addMessage) =
      { s with messages := s.messages ++ adds } := by
  induction adds generalizing s with
  | nil => simp [applyActions]
  | cons m rest ih =>
    simp only [List.map_cons, applyActions, List.foldl_cons]
    rw [show List.foldl appReducer (appReducer s (.addMessage m)) (rest.map .addMessage)
          = applyActions (appReducer s (.addMessage m)) (rest.map .addMessage) from rfl,
        ih]
    simp [appReducer]

/-- Actions that are all UPDATE_MESSAGE leave every non-message field of the
state unchanged and preserve the message-list length. -/
theorem applyActions_all_update_frame (l : List AppAction)
    (h : ∀ a ∈ l, isUpdateMessage a = true) (s : AppState) :
    (applyActions s l).user = s.user ∧
    (applyActions s l).currentChatId = s.currentChatId ∧
    (applyActions s l).chatHistory = s.chatHistory ∧
    (applyActions s l).isLoading = s.isLoading ∧
    (applyActions s l).error = s.error ∧
    (applyActions s l).needsHistoryRefresh = s.needsHistoryRefresh ∧
    (applyActions s l).messages.length = s.messages.length := by
  induction l generalizing s with
  | nil => simp [applyActions]
  | cons a rest ih =>
    have ha : isUpdateMessage a = true := h a (List.mem_cons_self a rest)
    have hrest : ∀ b ∈ rest, isUpdateMessage b = true :=
      fun b hb => h b (List.mem_cons_of_mem a hb)
    cases a with
    | updateMessage idx m =>
      simp only [applyActions, List.foldl_cons]
      have := ih hrest (appReducer s (.updateMessage idx m))
      simp only [applyActions] at this
      rw [this.1, this.2.1, this.2.2.1, this.2.2.2.1, this.2.2.2.2.1,
          this.2.2.2.2.2.1, this.2.2.2.2.2.2]
      exact ⟨(appReducer_updateMessage_frame s idx m).1,
             (appReducer_updateMessage_frame s idx m).2.1,
             (appReducer_updateMessage_frame s idx m).2.2.1,
             (appReducer_updateMessage_frame s idx m).2.2.2.1,
             (appReducer_updateMessage_frame s idx m).2.2.2.2.1,
             (appReducer_updateMessage_frame s idx m).2.2.2.2.2,
             appReducer_updateMessage_length s idx m⟩
    | login u => exact absurd ha (by simp [isUpdateMessage])
    | logout => exact absurd ha (by simp [isUpdateMessage])
    | setLoading b => exact absurd ha (by simp [isUpdateMessage])
    | setError e => exact absurd ha (by simp [isUpdateMessage])
    | setCurrentChat c => exact absurd ha (by simp [isUpdateMessage])
    | setMessages ms => exact absurd ha (by simp [isUpdateMessage])
    | addMessage m => exact absurd ha (by simp [isUpdateMessage])
    | setChatHistory hh => exact absurd ha (by simp [isUpdateMessage])
    | setNeedsHistoryRefresh b => exact absurd ha (by simp [isUpdateMessage])
    | updateMessageFeedback idx fb => exact absurd ha (by simp [isUpdateMessage])

theorem streamLoop_all_update_aux (n : Nat) :
    ∀ (full : String) (idx : Int) (cur : Nat), strLen full - cur ≤ n →
      ∀ a ∈ streamLoop full idx cur, isUpdateMessage a = true := by
  induction n with
  | zero =>
    intro full idx cur hle a ha
    rw [streamLoop, if_neg (by omega)] at ha
    simp only [List.mem_singleton] at ha
    subst ha
    rfl
  | succ n ih =>
    intro full idx cur hle a ha
    rw [streamLoop] at ha
    by_cases hc : cur < strLen full
    · rw [if_pos hc] at ha
      rcases List.mem_cons.mp ha with h | h
      · subst h; rfl
      · exact ih full idx (cur + 8) (by omega) a h
    · rw [if_neg hc] at ha
      simp only [List.mem_singleton] at ha
      subst ha
      rfl

theorem streamLoop_all_update (full : String) (idx : Int) (cur : Nat) :
    ∀ a ∈ streamLoop full idx cur, isUpdateMessage a = true :=
  streamLoop_all_update_aux (strLen full - cur) full idx cur (Nat.le_refl _)

theorem simulateStreamingResponse_all_update (full : String) (idx : Int) :
    ∀ a ∈ simulateStreamingResponse full idx, isUpdateMessage a = true := by
  intro a ha
  rcases List.mem_cons.mp ha with h | h
  · subst h; rfl
  · exact streamLoop_all_update full idx 5 a h

theorem simulateStreamingResponseChat_all_update (full : String) (idx : Int) :
    ∀ a ∈ simulateStreamingResponseChat full idx, isUpdateMessage a = true := by
  intro a ha
  simp only [simulateStreamingResponseChat, List.mem_map] at ha
  obtain ⟨k, _, hk⟩ := ha
  subst hk
  rfl

/-- A predicate that is false on every UPDATE_MESSAGE action filters a list
of pure UPDATE_MESSAGE actions to nothing. -/
theorem filter_eq_nil_of_all_update (p : AppAction → Bool)
    (hp : ∀ i m, p (AppAction.updateMessage i m) = false) :
    ∀ (l : List AppAction), (∀ a ∈ l, isUpdateMessage a = true) → l.filter p = [] := by
  intro l
  induction l with
  | nil => intro _; rfl
  | cons a rest ih =>
    intro h
    have ha := h a (List.mem_cons_self a rest)
    have hrest := fun b hb => h b (List.mem_cons_of_mem a hb)
    cases a with
    | updateMessage idx m => simp [List.filter_cons, hp, ih hrest]
    | login u => exact absurd ha (by simp [isUpdateMessage])
    | logout => exact absurd ha (by simp [isUpdateMessage])
    | setLoading b => exact absurd ha (by simp [isUpdateMessage])
    | setError e => exact absurd ha (by simp [isUpdateMessage])
    | setCurrentChat c => exact absurd ha (by simp [isUpdateMessage])
    | setMessages ms => exact absurd ha (by simp [isUpdateMessage])
    | addMessage m => exact absurd ha (by simp [isUpdateMessage])
    | setChatHistory hh => exact absurd ha (by simp [isUpdateMessage])
    | setNeedsHistoryRefresh b => exact absurd ha (by simp [isUpdateMessage])
    | updateMessageFeedback idx fb => exact absurd ha (by simp [isUpdateMessage])

/-- Folding a sequence of in-bounds UPDATE_MESSAGE actions gives, at each
index, the payload of the latest update targeting it, and leaves every
other index untouched. -/
theorem applyUpdates_nthOpt (updates : List (Nat × ChatMessage)) (base : AppState)
    (hb : ∀ p ∈ updates, p.1 < base.messages.length) (i : Nat) :
    nthOpt (applyActions base
        (updates.map fun p => AppAction.updateMessage (p.1 : Int) p.2)).messages i =
      match latestUpdate updates i with
      | some m => some m
      | none => nthOpt base.messages i := by
  induction updates generalizing base with
  | nil => simp [applyActions, latestUpdate]
  | cons u rest ih =>
    obtain ⟨j, m⟩ := u
    have hj : j < base.messages.length := hb (j, m) (List.mem_cons_self _ _)
    have hrest : ∀ p ∈ rest, p.1 <
        (appReducer base (.updateMessage (j : Int) m)).messages.length := by
      intro p hp
      rw [appReducer_updateMessage_length]
      exact hb p (List.mem_cons_of_mem _ hp)
    simp only [List.map_cons, applyActions, List.foldl_cons]
    rw [show List.foldl appReducer (appReducer base (.updateMessage (j : Int) m))
          (rest.map fun p => AppAction.updateMessage (p.1 : Int) p.2)
          = applyActions (appReducer base (.updateMessage (j : Int) m))
              (rest.map fun p => AppAction.updateMessage (p.1 : Int) p.2) from rfl,
        ih _ hrest]
    simp only [latestUpdate]
    cases hlr : latestUpdate rest i with
    | some m2 => rfl
    | none =>
      rw [appReducer_updateMessage_nthOpt]
      by_cases hij : j = i
      · subst hij
        obtain ⟨x, hx⟩ := nthOpt_isSome_of_lt base.messages j hj
        simp [hx]
      · have hcast : ¬ (i : Int) = (j : Int) := by
          intro hc
          exact hij (by exact_mod_cast hc.symm)
        rw [if_neg hij]
        cases nthOpt base.messages i with
        | none => rfl
        | some msg => simp [hcast]

theorem appReducer_updateFeedback_nthOpt (s : AppState) (idx : Int)
    (fb : Option FeedbackTag) (i : Nat) :
    nthOpt (appReducer s (.updateMessageFeedback idx fb)).messages i =
      (nthOpt s.messages i).map
        (fun msg => if (i : Int) = idx then { msg with feedback := fb } else msg) := by
  simp only [appReducer, nthOpt_mapWithIndexFrom, Nat.zero_add]

theorem nthOpt_lt_of_eq_some {α : Type} {l : List α} {i : Nat} {x : α}
    (h : nthOpt l i = some x) : i < l.length := by
  by_contra hc
  rw [(nthOpt_eq_none_iff l i).mpr (by omega)] at h
  exact Option.noConfusion h

theorem nthOpt_ext {α : Type} :
    ∀ (l₁ l₂ : List α), (∀ i, nthOpt l₁ i = nthOpt l₂ i) → l₁ = l₂ := by
  intro l₁
  induction l₁ with
  | nil =>
    intro l₂ h
    cases l₂ with
    | nil => rfl
    | cons y ys => exact Option.noConfusion (h 0)
  | cons x xs ih =>
    intro l₂ h
    cases l₂ with
    | nil => exact Option.noConfusion (h 0)
    | cons y ys =>
      have h0 := h 0
      simp only [nthOpt] at h0
      cases h0
      rw [ih ys fun i => h (i + 1)]

/-! ## Claim theorems -/

/-- Claim C7: the LOGOUT action resets the entire state to the initial empty
state unconditionally: user null, current chat id null, messages empty, chat
history empty, loading false, error null, history-refresh flag false,
whatever the prior state was. -/
theorem claim7_logout_resets_everything (s : AppState) :
    appReducer s AppAction.logout = initialState ∧
    (appReducer s AppAction.logout).user = none ∧
    (appReducer s AppAction.logout).currentChatId = none ∧
    (appReducer s AppAction.logout).messages = [] ∧
    (appReducer s AppAction.logout).chatHistory = [] ∧
    (appReducer s AppAction.logout).isLoading = false ∧
    (appReducer s AppAction.logout).error = none ∧
    (appReducer s AppAction.logout).needsHistoryRefresh = false := by
  refine ⟨rfl, ?_, ?_, ?_, ?_, ?_, ?_, ?_⟩ <;> rfl

/-- Claim C9: an UPDATE_MESSAGE action whose index is out of bounds (negative
or at least the message-list length) is a safe no-op: the reducer returns a
state equal to the original, in particular with an element-wise equal message
list. -/
theorem claim9_update_message_out_of_bounds_noop (s : AppState) (idx : Int)
    (m : ChatMessage) (h : idx < 0 ∨ (s.messages.length : Int) ≤ idx) :
    appReducer s (.updateMessage idx m) = s := by
  have hm : (appReducer s (.updateMessage idx m)).messages = s.messages := by
    apply nthOpt_ext
    intro i
    rw [appReducer_updateMessage_nthOpt]
    cases hx : nthOpt s.messages i with
    | none => rfl
    | some x =>
      have hi : i < s.messages.length := nthOpt_lt_of_eq_some hx
      have : ¬ (i : Int) = idx := by
        rcases h with h | h <;> omega
      simp [this]
  have hfix : appReducer s (.updateMessage idx m) =
      { s with messages := (appReducer s (.updateMessage idx m)).messages } := rfl
  rw [hfix, hm]

theorem claim9_witness :
    ((5 : Int) < 0 ∨ ((initialState.messages.length : Int) ≤ 5)) ∧
    appReducer initialState (.updateMessage 5 { role := .assistant, content := "x" })
      = initialState :=
  ⟨by decide,
   claim9_update_message_out_of_bounds_noop initialState 5
     { role := .assistant, content := "x" } (by decide)⟩

/-- Claim C10: an in-bounds UPDATE_MESSAGE_FEEDBACK action changes only the
feedback field of the message at its index: that message keeps its role,
content and timestamp, every other index is untouched, and every
non-message field of the state is unchanged. -/
theorem claim10_update_feedback_frame (s : AppState) (i : Nat)
    (fb : Option FeedbackTag) (msg : ChatMessage)
    (hmsg : nthOpt s.messages i = some msg) :
    nthOpt (appReducer s (.updateMessageFeedback (i : Int) fb)).messages i =
      some { role := msg.role, content := msg.content, feedback := fb,
             timestamp := msg.timestamp } ∧
    (∀ j : Nat, j ≠ i →
      nthOpt (appReducer s (.updateMessageFeedback (i : Int) fb)).messages j =
        nthOpt s.messages j) ∧
    (appReducer s (.updateMessageFeedback (i : Int) fb)).user = s.user ∧
    (appReducer s (.updateMessageFeedback (i : Int) fb)).currentChatId
      = s.currentChatId ∧
    (appReducer s (.updateMessageFeedback (i : Int) fb)).chatHistory
      = s.chatHistory ∧
    (appReducer s (.updateMessageFeedback (i : Int) fb)).isLoading = s.isLoading ∧
    (appReducer s (.updateMessageFeedback (i : Int) fb)).error = s.error ∧
    (appReducer s (.updateMessageFeedback (i : Int) fb)).needsHistoryRefresh
      = s.needsHistoryRefresh := by
  refine ⟨?_, ?_, rfl, rfl, rfl, rfl, rfl, rfl⟩
  · rw [appReducer_updateFeedback_nthOpt, hmsg]
    simp
  · intro j hj
    rw [appReducer_updateFeedback_nthOpt]
    cases hx : nthOpt s.messages j with
    | none => rfl
    | some x =>
      have : ¬ (j : Int) = (i : Int) := by exact_mod_cast hj
      simp [this]

theorem claim10_witness :
    nthOpt [({ role := Role.user, content := "q" } : ChatMessage),
            { role := Role.assistant, content := "a" }] 1 =
      some { role := Role.assistant, content := "a" } ∧
    (nthOpt (appReducer
        { initialState with
          messages := [{ role := Role.user, content := "q" },
                       { role := Role.assistant, content := "a" }] }
        (.updateMessageFeedback (1 : Int) (some FeedbackTag.liked))).messages 1 =
      some { role := Role.assistant, content := "a",
             feedback := some FeedbackTag.liked, timestamp := none } ∧
    (∀ j : Nat, j ≠ 1 →
      nthOpt (appReducer
        { initialState with
          messages := [{ role := Role.user, content := "q" },
                       { role := Role.assistant, content := "a" }] }
        (.updateMessageFeedback (1 : Int) (some FeedbackTag.liked))).messages j =
        nthOpt [({ role := Role.user, content := "q" } : ChatMessage),
                { role := Role.assistant, content := "a" }] j) ∧
    (appReducer
        { initialState with
          messages := [{ role := Role.user, content := "q" },
                       { role := Role.assistant, content := "a" }] }
        (.updateMessageFeedback (1 : Int) (some FeedbackTag.liked))).user =
      ({ initialState with
          messages := [{ role := Role.user, content := "q" },
                       { role := Role.assistant, content := "a" }] } : AppState).user ∧
    (appReducer
        { initialState with
          messages := [{ role := Role.user, content := "q" },
                       { role := Role.assistant, content := "a" }] }
        (.updateMessageFeedback (1 : Int) (some FeedbackTag.liked))).currentChatId =
      ({ initialState with
          messages := [{ role := Role.user, content := "q" },
                       { role := Role.assistant, content := "a" }] } : AppState).currentChatId ∧
    (appReducer
        { initialState with
          messages := [{ role := Role.user, content := "q" },
                       { role := Role.assistant, content := "a" }] }
        (.updateMessageFeedback (1 : Int) (some FeedbackTag.liked))).chatHistory =
      ({ initialState with
          messages := [{ role := Role.user, content := "q" },
                       { role := Role.assistant, content := "a" }] } : AppState).chatHistory ∧
    (appReducer
        { initialState with
          messages := [{ role := Role.user, content := "q" },
                       { role := Role.assistant, content := "a" }] }
        (.updateMessageFeedback (1 : Int) (some FeedbackTag.liked))).isLoading =
      ({ initialState with
          messages := [{ role := Role.user, content := "q" },
                       { role := Role.assistant, content := "a" }] } : AppState).isLoading ∧
    (appReducer
        { initialState with
          messages := [{ role := Role.user, content := "q" },
                       { role := Role.assistant, content := "a" }] }
        (.updateMessageFeedback (1 : Int) (some FeedbackTag.liked))).error =
      ({ initialState with
          messages := [{ role := Role.user, content := "q" },
                       { role := Role.assistant, content := "a" }] } : AppState).error ∧
    (appReducer
        { initialState with
          messages := [{ role := Role.user, content := "q" },
                       { role := Role.assistant, content := "a" }] }
        (.updateMessageFeedback (1 : Int) (some FeedbackTag.liked))).needsHistoryRefresh =
      ({ initialState with
          messages := [{ role := Role.user, content := "q" },
                       { role := Role.assistant, content := "a" }] } : AppState).needsHistoryRefresh) :=
  ⟨by decide,
   claim10_update_feedback_frame
     { initialState with
       messages := [{ role := Role.user, content := "q" },
                    { role := Role.assistant, content := "a" }] }
     1 (some FeedbackTag.liked) { role := Role.assistant, content := "a" }
     (by decide)⟩

/-- Claim C2: for any starting state, any sequence of ADD_MESSAGE actions
followed by UPDATE_MESSAGE actions whose indices are within bounds of the
grown list, the final message at each updated index is the payload of the
latest update targeting it, and every other index holds the original
(appended) message, order preserved; the length is the original length plus
the number of adds. -/
theorem claim2_add_then_update_messages (s : AppState) (adds : List ChatMessage)
    (updates : List (Nat × ChatMessage))
    (hb : ∀ p ∈ updates, p.1 < s.messages.length + adds.length) :
    (applyActions s (adds.map AppAction.addMessage ++
        updates.map fun p => AppAction.updateMessage (p.1 : Int) p.2)).messages.length
      = s.messages.length + adds.length ∧
    ∀ i : Nat,
      nthOpt (applyActions s (adds.map AppAction.addMessage ++
          updates.map fun p => AppAction.updateMessage (p.1 : Int) p.2)).messages i =
        match latestUpdate updates i with
        | some m => some m
        | none => nthOpt (s.messages ++ adds) i := by
  rw [applyActions_append, applyActions_addMessages]
  have hb2 : ∀ p ∈ updates, p.1 <
      ({ s with messages := s.messages ++ adds } : AppState).messages.length := by
    intro p hp
    simpa [List.length_append] using hb p hp
  constructor
  · have hupd : ∀ a ∈ updates.map fun p =>
        AppAction.updateMessage (p.1 : Int) p.2, isUpdateMessage a = true := by
      intro a ha
      simp only [List.mem_map] at ha
      obtain ⟨p, _, hp⟩ := ha
      subst hp
      rfl
    have := (applyActions_all_update_frame _ hupd
        { s with messages := s.messages ++ adds }).2.2.2.2.2.2
    simpa [List.length_append] using this
  · intro i
    exact applyUpdates_nthOpt updates _ hb2 i

theorem claim2_witness :
    (∀ p ∈ [((0 : Nat), msgA), (1, msgQ), (0, msgQ)],
        p.1 < initialState.messages.length + [msgQ, msgA].length) ∧
    ((applyActions initialState ([msgQ, msgA].map AppAction.addMessage ++
        [((0 : Nat), msgA), (1, msgQ), (0, msgQ)].map fun p =>
          AppAction.updateMessage (p.1 : Int) p.2)).messages.length
      = initialState.messages.length + [msgQ, msgA].length ∧
    ∀ i : Nat,
      nthOpt (applyActions initialState ([msgQ, msgA].map AppAction.addMessage ++
          [((0 : Nat), msgA), (1, msgQ), (0, msgQ)].map fun p =>
            AppAction.updateMessage (p.1 : Int) p.2)).messages i =
        match latestUpdate [((0 : Nat), msgA), (1, msgQ), (0, msgQ)] i with
        | some m => some m
        | none => nthOpt (initialState.messages ++ [msgQ, msgA]) i) :=
  ⟨by decide,
   claim2_add_then_update_messages initialState [msgQ, msgA]
     [((0 : Nat), msgA), (1, msgQ), (0, msgQ)] (by decide)⟩

/-- Claim C3: a send attempted with input that trims to the empty string, or
in a state with no logged-in user, is a no-op in both chat components: no
action is dispatched (so no user message or placeholder is appended and the
state is unchanged) and no request is sent to the chat-send endpoint. -/
theorem claim3_blank_or_no_user_send_noop (s : AppState) (input : String)
    (h : jsTrim input = "" ∨ s.user = none) :
    (∀ b, handleSendMessage s input b = ([], []) ∧
      applyActions s (handleSendMessage s input b).2 = s) ∧
    (∀ streaming b, handleSendMessageChat s input streaming b = ([], []) ∧
      applyActions s (handleSendMessageChat s input streaming b).2 = s) := by
  constructor
  · intro b
    have h1 : handleSendMessage s input b = ([], []) := by
      rcases h with h | h <;> simp [handleSendMessage, h]
    rw [h1]
    exact ⟨rfl, rfl⟩
  · intro streaming b
    have h1 : handleSendMessageChat s input streaming b = ([], []) := by
      rcases h with h | h <;> simp [handleSendMessageChat, h]
    rw [h1]
    exact ⟨rfl, rfl⟩

theorem claim3_witness :
    (jsTrim "   " = "" ∨ persistedState.user = none) ∧
    ((∀ b, handleSendMessage persistedState "   " b = ([], []) ∧
      applyActions persistedState (handleSendMessage persistedState "   " b).2
        = persistedState) ∧
    (∀ streaming b, handleSendMessageChat persistedState "   " streaming b = ([], []) ∧
      applyActions persistedState
          (handleSendMessageChat persistedState "   " streaming b).2
        = persistedState)) :=
  ⟨Or.inl (by decide),
   claim3_blank_or_no_user_send_noop persistedState "   " (Or.inl (by decide))⟩

theorem handleSendMessage_ok_shape (s : AppState) (input : String) (u : User)
    (r : ChatResponse) (hu : s.user = some u) (hin : jsTrim input ≠ "") :
    (handleSendMessage s input (.ok r)).2 =
      [AppAction.addMessage { role := .user, content := jsTrim input },
       AppAction.addMessage { role := .assistant, content := "" }] ++
      (if r.chat_id ≠ "" ∧ s.currentChatId = some "new_chat" then
         [AppAction.setCurrentChat (some r.chat_id),
          AppAction.setNeedsHistoryRefresh true]
       else []) ++
      simulateStreamingResponse r.response ((s.messages.length : Int) + 1) := by
  simp [handleSendMessage, hu, hin]

theorem handleSendMessage_err_shape (s : AppState) (input : String) (u : User)
    (hu : s.user = some u) (hin : jsTrim input ≠ "") :
    (handleSendMessage s input (.error ())).2 =
      [AppAction.addMessage { role := .user, content := jsTrim input },
       AppAction.addMessage { role := .assistant, content := "" },
       AppAction.setError (some "Failed to send message"),
       AppAction.updateMessage ((s.messages.length : Int) + 1)
         { role := .assistant,
           content := "Sorry, I encountered an error. Please try again." }] := by
  simp [handleSendMessage, hu, hin]

theorem handleSendMessageChat_ok_shape (s : AppState) (input : String) (u : User)
    (r : ChatResponse) (hu : s.user = some u) (hin : jsTrim input ≠ "") :
    (handleSendMessageChat s input false (.ok r)).2 =
      [AppAction.addMessage { role := .user, content := jsTrim input },
       AppAction.addMessage { role := .assistant, content := "" }] ++
      (if s.currentChatId = some "new_chat" ∨ s.currentChatId = none then
         [AppAction.setCurrentChat (some r.chat_id),
          AppAction.setNeedsHistoryRefresh true]
       else []) ++
      simulateStreamingResponseChat r.response ((s.messages.length : Int) + 1) := by
  simp [handleSendMessageChat, hu, hin]

theorem handleSendMessageChat_err_shape (s : AppState) (input : String) (u : User)
    (hu : s.user = some u) (hin : jsTrim input ≠ "") :
    (handleSendMessageChat s input false (.error ())).2 =
      [AppAction.addMessage { role := .user, content := jsTrim input },
       AppAction.addMessage { role := .assistant, content := "" },
       AppAction.setError (some "Failed to send message"),
       AppAction.setMessages s.messages.dropLast] := by
  simp [handleSendMessageChat, hu, hin]

theorem stream_filter_setCC (full : String) (idx : Int) :
    (simulateStreamingResponse full idx).filter isSetCurrentChat = [] :=
  filter_eq_nil_of_all_update _ (fun _ _ => rfl) _
    (simulateStreamingResponse_all_update full idx)

theorem stream_filter_setNHR (full : String) (idx : Int) :
    (simulateStreamingResponse full idx).filter isSetNeedsHistoryRefresh = [] :=
  filter_eq_nil_of_all_update _ (fun _ _ => rfl) _
    (simulateStreamingResponse_all_update full idx)

theorem streamChat_filter_setCC (full : String) (idx : Int) :
    (simulateStreamingResponseChat full idx).filter isSetCurrentChat = [] :=
  filter_eq_nil_of_all_update _ (fun _ _ => rfl) _
    (simulateStreamingResponseChat_all_update full idx)

theorem streamChat_filter_setNHR (full : String) (idx : Int) :
    (simulateStreamingResponseChat full idx).filter isSetNeedsHistoryRefresh = [] :=
  filter_eq_nil_of_all_update _ (fun _ _ => rfl) _
    (simulateStreamingResponseChat_all_update full idx)

theorem stream_frame (s : AppState) (full : String) (idx : Int) :
    (applyActions s (simulateStreamingResponse full idx)).currentChatId
      = s.currentChatId ∧
    (applyActions s (simulateStreamingResponse full idx)).needsHistoryRefresh
      = s.needsHistoryRefresh :=
  ⟨(applyActions_all_update_frame _ (simulateStreamingResponse_all_update full idx) s).2.1,
   (applyActions_all_update_frame _
     (simulateStreamingResponse_all_update full idx) s).2.2.2.2.2.1⟩

theorem streamChat_frame (s : AppState) (full : String) (idx : Int) :
    (applyActions s (simulateStreamingResponseChat full idx)).currentChatId
      = s.currentChatId ∧
    (applyActions s (simulateStreamingResponseChat full idx)).needsHistoryRefresh
      = s.needsHistoryRefresh :=
  ⟨(applyActions_all_update_frame _
      (simulateStreamingResponseChat_all_update full idx) s).2.1,
   (applyActions_all_update_frame _
     (simulateStreamingResponseChat_all_update full idx) s).2.2.2.2.2.1⟩

/-- Claim C1: a send started while the chat id is the sentinel "new_chat",
whose backend call succeeds with a chat id, dispatches SET_CURRENT_CHAT
exactly once with exactly the backend id and SET_NEEDS_HISTORY_REFRESH true
exactly once, in both chat components; a send started on an
already-persisted chat dispatches neither, for any backend outcome. -/
theorem claim1_sentinel_send_adopts_backend_id (s : AppState) (input : String)
    (u : User) (hu : s.user = some u) (hin : jsTrim input ≠ "") :
    sendAdoptsSentinel s input ∧ sendKeepsPersisted s input := by
  constructor
  · intro hcid r hr
    have h02 := handleSendMessage_ok_shape s input u r hu hin
    rw [if_pos ⟨hr, hcid⟩] at h02
    have h03 := handleSendMessageChat_ok_shape s input u r hu hin
    rw [if_pos (Or.inl hcid)] at h03
    refine ⟨?_, ?_, ?_, ?_, ?_, ?_, ?_, ?_⟩
    · rw [h02]
      simp [List.filter_append, stream_filter_setCC, isSetCurrentChat]
    · rw [h02]
      simp [List.filter_append, stream_filter_setNHR, isSetNeedsHistoryRefresh]
    · rw [h02, applyActions_append, (stream_frame _ _ _).1]
      simp [applyActions, appReducer]
    · rw [h02, applyActions_append, (stream_frame _ _ _).2]
      simp [applyActions, appReducer]
    · rw [h03]
      simp [List.filter_append, streamChat_filter_setCC, isSetCurrentChat]
    · rw [h03]
      simp [List.filter_append, streamChat_filter_setNHR, isSetNeedsHistoryRefresh]
    · rw [h03, applyActions_append, (streamChat_frame _ _ _).1]
      simp [applyActions, appReducer]
    · rw [h03, applyActions_append, (streamChat_frame _ _ _).2]
      simp [applyActions, appReducer]
  · intro cid hcid hne b
    cases b with
    | ok r =>
      have h02 := handleSendMessage_ok_shape s input u r hu hin
      rw [if_neg (by simp [hcid, hne])] at h02
      have h03 := handleSendMessageChat_ok_shape s input u r hu hin
      rw [if_neg (by simp [hcid, hne])] at h03
      refine ⟨?_, ?_, ?_, ?_, ?_, ?_, ?_, ?_⟩
      · rw [h02]
        simp [List.filter_append, stream_filter_setCC, isSetCurrentChat]
      · rw [h02]
        simp [List.filter_append, stream_filter_setNHR, isSetNeedsHistoryRefresh]
      · rw [h02, applyActions_append, (stream_frame _ _ _).1]
        simp [applyActions, appReducer]
      · rw [h02, applyActions_append, (stream_frame _ _ _).2]
        simp [applyActions, appReducer]
      · rw [h03]
        simp [List.filter_append, streamChat_filter_setCC, isSetCurrentChat]
      · rw [h03]
        simp [List.filter_append, streamChat_filter_setNHR, isSetNeedsHistoryRefresh]
      · rw [h03, applyActions_append, (streamChat_frame _ _ _).1]
        simp [applyActions, appReducer]
      · rw [h03, applyActions_append, (streamChat_frame _ _ _).2]
        simp [applyActions, appReducer]
    | error e =>
      obtain rfl : e = () := rfl
      have h02 := handleSendMessage_err_shape s input u hu hin
      have h03 := handleSendMessageChat_err_shape s input u hu hin
      refine ⟨?_, ?_, ?_, ?_, ?_, ?_, ?_, ?_⟩
      · rw [h02]; simp [isSetCurrentChat]
      · rw [h02]; simp [isSetNeedsHistoryRefresh]
      · rw [h02]; simp [applyActions, appReducer]
      · rw [h02]; simp [applyActions, appReducer]
      · rw [h03]; simp [isSetCurrentChat]
      · rw [h03]; simp [isSetNeedsHistoryRefresh]
      · rw [h03]; simp [applyActions, appReducer]
      · rw [h03]; simp [applyActions, appReducer]

theorem claim1_witness :
    sentinelState.user = some u0 ∧ jsTrim "hi" ≠ "" ∧
    (sendAdoptsSentinel sentinelState "hi" ∧ sendKeepsPersisted sentinelState "hi") :=
  ⟨rfl, by decide,
   claim1_sentinel_send_adopts_backend_id sentinelState "hi" u0 rfl (by decide)⟩

theorem appReducer_setError_messages (s : AppState) (e : Option String) :
    (appReducer s (.setError e)).messages = s.messages := rfl

/-- Claim C4: a feedback submission on an assistant message that passes the
guard and whose backend call fails dispatches the optimistic tag, then
UPDATE_MESSAGE_FEEDBACK with null on the same index, then an error; after
the dispatched actions are applied the feedback tag of that message is back
to none. -/
theorem claim4_failed_feedback_reverts_to_none (s : AppState) (i : Int)
    (t : FeedbackTag) (msg : ChatMessage) (u : User) (cid : String)
    (hmsg : listGetInt s.messages i = some msg) (hrole : msg.role = .assistant)
    (hu : s.user = some u) (hcid : s.currentChatId = some cid) (hcid2 : cid ≠ "") :
    (handleFeedback s i t (.error ())).2 =
      [AppAction.updateMessageFeedback i (some t),
       AppAction.updateMessageFeedback i none,
       AppAction.setError (some "Failed to submit feedback")] ∧
    listGetInt (applyActions s (handleFeedback s i t (.error ())).2).messages i =
      some { msg with feedback := none } := by
  have h0 : 0 ≤ i := by
    by_contra hc
    simp only [listGetInt, if_neg hc] at hmsg
    exact Option.noConfusion hmsg
  have hnth : nthOpt s.messages i.toNat = some msg := by
    simpa only [listGetInt, if_pos h0] using hmsg
  have hcast : ((i.toNat : Nat) : Int) = i := Int.toNat_of_nonneg h0
  have hact : (handleFeedback s i t (.error ())).2 =
      [AppAction.updateMessageFeedback i (some t),
       AppAction.updateMessageFeedback i none,
       AppAction.setError (some "Failed to submit feedback")] := by
    simp [handleFeedback, hmsg, hu, hcid, hcid2, hrole]
  refine ⟨hact, ?_⟩
  rw [hact]
  simp only [applyActions, List.foldl_cons, List.foldl_nil]
  rw [show ∀ x : AppState,
        (appReducer x (.setError (some "Failed to submit feedback"))).messages
          = x.messages from fun _ => rfl]
  simp only [listGetInt, if_pos h0]
  rw [appReducer_updateFeedback_nthOpt, appReducer_updateFeedback_nthOpt, hnth]
  simp [hcast]

theorem claim4_witness :
    listGetInt persistedState.messages 1 = some msgA ∧
    msgA.role = Role.assistant ∧
    persistedState.user = some u0 ∧
    persistedState.currentChatId = some "chat42" ∧
    ("chat42" : String) ≠ "" ∧
    ((handleFeedback persistedState 1 FeedbackTag.liked (.error ())).2 =
      [AppAction.updateMessageFeedback 1 (some FeedbackTag.liked),
       AppAction.updateMessageFeedback 1 none,
       AppAction.setError (some "Failed to submit feedback")] ∧
    listGetInt (applyActions persistedState
        (handleFeedback persistedState 1 FeedbackTag.liked (.error ())).2).messages 1 =
      some { msgA with feedback := none }) :=
  ⟨by decide, by decide, rfl, rfl, by decide,
   claim4_failed_feedback_reverts_to_none persistedState 1 FeedbackTag.liked msgA u0
     "chat42" (by decide) (by decide) rfl rfl (by decide)⟩

/-- Claim C5 (amended): submit-feedback on a user-role message, or in a
state whose current chat id is falsy (null or the empty string), is a no-op:
no request is sent, no action is dispatched, and the state is unchanged.
The sentinel chat id "new_chat" is a truthy string and does not trigger the
early return (see the counterexample). -/
theorem claim5_feedback_early_return (s : AppState) (i : Int) (t : FeedbackTag)
    (b : Except Unit Unit)
    (h : (∃ msg, listGetInt s.messages i = some msg ∧ msg.role = Role.user) ∨
         strFalsy s.currentChatId = true) :
    handleFeedback s i t b = ([], []) ∧
    applyActions s (handleFeedback s i t b).2 = s := by
  have h1 : handleFeedback s i t b = ([], []) := by
    rcases h with ⟨msg, hmsg, hrole⟩ | hfalsy
    · cases hu : s.user with
      | none => simp [handleFeedback, hmsg, hu]
      | some u =>
        cases hc : s.currentChatId with
        | none => simp [handleFeedback, hmsg, hu, hc]
        | some cid => simp [handleFeedback, hmsg, hu, hc, hrole]
    · cases hc : s.currentChatId with
      | none =>
        cases hm : listGetInt s.messages i with
        | none => simp [handleFeedback, hm]
        | some msg =>
          cases hu : s.user with
          | none => simp [handleFeedback, hm, hu]
          | some u => simp [handleFeedback, hm, hu, hc]
      | some cid =>
        have hcid : cid = "" := by simpa [strFalsy, hc] using hfalsy
        cases hm : listGetInt s.messages i with
        | none => simp [handleFeedback, hm]
        | some msg =>
          cases hu : s.user with
          | none => simp [handleFeedback, hm, hu]
          | some u => simp [handleFeedback, hm, hu, hc, hcid]
  rw [h1]
  exact ⟨rfl, rfl⟩

theorem claim5_witness :
    ((∃ msg, listGetInt persistedState.messages 0 = some msg ∧
        msg.role = Role.user) ∨ strFalsy persistedState.currentChatId = true) ∧
    (handleFeedback persistedState 0 FeedbackTag.liked (.ok ()) = ([], []) ∧
     applyActions persistedState
        (handleFeedback persistedState 0 FeedbackTag.liked (.ok ())).2
       = persistedState) :=
  ⟨Or.inl ⟨msgQ, by decide, by decide⟩,
   claim5_feedback_early_return persistedState 0 FeedbackTag.liked (.ok ())
     (Or.inl ⟨msgQ, by decide, by decide⟩)⟩

/-- Claim C5 (counterexample): with the current chat id equal to the
sentinel "new_chat" and an assistant message at index 1, submit-feedback
does NOT early-return: it sends a feedback request carrying the sentinel as
chat_id and dispatches the optimistic tag, contradicting the claim that a
sentinel (not-yet-persisted) chat id has no effect. -/
theorem claim5_counterexample :
    (handleFeedback sentinelState 1 FeedbackTag.liked (.ok ())).1 =
      [{ username := "kamala", chat_id := "new_chat", message_index := 0,
         user_message := "q", assistant_message := "a",
         feedback_type := FeedbackTag.liked }] ∧
    (handleFeedback sentinelState 1 FeedbackTag.liked (.ok ())).2 =
      [AppAction.updateMessageFeedback 1 (some FeedbackTag.liked)] ∧
    applyActions sentinelState
        (handleFeedback sentinelState 1 FeedbackTag.liked (.ok ())).2
      ≠ sentinelState := by
  refine ⟨by decide, by decide, by decide⟩

/-- Claim C6: a submit-feedback call that passes its guard on an assistant
message at index i sends exactly one request to the feedback collaborator,
carrying message_index floor(i / 2), user_message equal to the content of
the message at index i - 1 (empty string if absent), assistant_message
equal to the content of the message at index i, the chosen tag, the
username, and the current chat id. -/
theorem claim6_feedback_request_fields (s : AppState) (i : Int) (t : FeedbackTag)
    (b : Except Unit Unit) (msg : ChatMessage) (u : User) (cid : String)
    (hmsg : listGetInt s.messages i = some msg) (hrole : msg.role = .assistant)
    (hu : s.user = some u) (hcid : s.currentChatId = some cid) (hcid2 : cid ≠ "") :
    (handleFeedback s i t b).1 =
      [{ username := u.username
         chat_id := cid
         message_index := Int.fdiv i 2
         user_message :=
           ((listGetInt s.messages (i - 1)).map ChatMessage.content).getD ""
         assistant_message := msg.content
         feedback_type := t }] := by
  cases b <;> simp [handleFeedback, hmsg, hu, hcid, hcid2, hrole]

theorem claim6_witness :
    listGetInt persistedState.messages 1 = some msgA ∧
    msgA.role = Role.assistant ∧
    persistedState.user = some u0 ∧
    persistedState.currentChatId = some "chat42" ∧
    ("chat42" : String) ≠ "" ∧
    (handleFeedback persistedState 1 FeedbackTag.disliked (.ok ())).1 =
      [{ username := u0.username
         chat_id := "chat42"
         message_index := Int.fdiv 1 2
         user_message :=
           ((listGetInt persistedState.messages (1 - 1)).map ChatMessage.content).getD ""
         assistant_message := msgA.content
         feedback_type := FeedbackTag.disliked }] :=
  ⟨by decide, by decide, rfl, rfl, by decide,
   claim6_feedback_request_fields persistedState 1 FeedbackTag.disliked (.ok ())
     msgA u0 "chat42" (by decide) (by decide) rfl rfl (by decide)⟩

/-- Claim C8 (amended): in the floating ChatPanel component (part_002), a
send whose backend call fails surfaces an error and replaces the empty
placeholder assistant message at index pre-send count + 1 with the fixed
apology string; in the Chat component (part_003) the failure branch instead
dispatches no UPDATE_MESSAGE at all and sets the message list to the stale
pre-send list minus its last element (see the counterexample). -/
theorem claim8_failed_send_apology (s : AppState) (input : String) (u : User)
    (hu : s.user = some u) (hin : jsTrim input ≠ "") :
    (handleSendMessage s input (.error ())).2 =
      [AppAction.addMessage { role := .user, content := jsTrim input },
       AppAction.addMessage { role := .assistant, content := "" },
       AppAction.setError (some "Failed to send message"),
       AppAction.updateMessage ((s.messages.length : Int) + 1)
         { role := .assistant,
           content := "Sorry, I encountered an error. Please try again." }] ∧
    nthOpt (applyActions s (handleSendMessage s input (.error ())).2).messages
        (s.messages.length + 1) =
      some { role := .assistant,
             content := "Sorry, I encountered an error. Please try again." } ∧
    (applyActions s (handleSendMessage s input (.error ())).2).error =
      some "Failed to send message" := by
  have hact := handleSendMessage_err_shape s input u hu hin
  refine ⟨hact, ?_, ?_⟩
  · rw [hact]
    simp only [applyActions, List.foldl_cons, List.foldl_nil]
    rw [appReducer_updateMessage_nthOpt]
    rw [show ∀ x : AppState,
          (appReducer x (.setError (some "Failed to send message"))).messages
            = x.messages from fun _ => rfl]
    rw [show ∀ (x : AppState) (m : ChatMessage),
          (appReducer x (.addMessage m)).messages = x.messages ++ [m]
          from fun _ _ => rfl,
        show ∀ (x : AppState) (m : ChatMessage),
          (appReducer x (.addMessage m)).messages = x.messages ++ [m]
          from fun _ _ => rfl]
    rw [List.append_assoc, nthOpt_append, if_neg (by omega)]
    have hsub : s.messages.length + 1 - s.messages.length = 1 := by omega
    rw [hsub]
    simp [nthOpt]
  · rw [hact]
    simp [applyActions, appReducer]

theorem claim8_witness :
    persistedState.user = some u0 ∧ jsTrim "hi" ≠ "" ∧
    ((handleSendMessage persistedState "hi" (.error ())).2 =
      [AppAction.addMessage { role := .user, content := jsTrim "hi" },
       AppAction.addMessage { role := .assistant, content := "" },
       AppAction.setError (some "Failed to send message"),
       AppAction.updateMessage ((persistedState.messages.length : Int) + 1)
         { role := .assistant,
           content := "Sorry, I encountered an error. Please try again." }] ∧
    nthOpt (applyActions persistedState
        (handleSendMessage persistedState "hi" (.error ())).2).messages
        (persistedState.messages.length + 1) =
      some { role := .assistant,
             content := "Sorry, I encountered an error. Please try again." } ∧
    (applyActions persistedState
        (handleSendMessage persistedState "hi" (.error ())).2).error =
      some "Failed to send message") :=
  ⟨rfl, by decide,
   claim8_failed_send_apology persistedState "hi" u0 rfl (by decide)⟩

/-- Claim C8 (counterexample): in the Chat component (part_003), a failed
send does not replace the placeholder with the apology: no UPDATE_MESSAGE
action is dispatched at all, and the final message list is the stale
pre-send list minus its last element, so the pre-send assistant message is
removed instead. -/
theorem claim8_counterexample :
    (handleSendMessageChat persistedState "hi" false (.error ())).2.filter
        isUpdateMessage = [] ∧
    (applyActions persistedState
        (handleSendMessageChat persistedState "hi" false (.error ())).2).messages =
      [msgQ] := by
  refine ⟨by decide, by decide⟩
